import Mathlib

/-
Verification of the homotopy combinator library.

The library is a pure combinator algebra over `f64` scalars.  The embedding
models `f64` as `ℚ`: every operation of the library on the inputs appearing
in the claims is exact decimal arithmetic, so rational arithmetic reproduces
the source semantics (the one place where IEEE rounding is essential is noted
at the corresponding claim).  A homotopy with an N-dimensional parameter is a
record of the three capability functions `f`, `g`, `h`, mirroring the Rust
trait `Homotopy<X, S>` with `S` instantiated at `f64`, `[f64; 2]`, `[f64; 3]`.
-/

namespace HomotopySpec

/-- trait Homotopy with scalar parameter: `f`, `g`, and a map `h` with
`h(x, 0.0) == f(x)` and `h(x, 1.0) == g(x)` as documented contract. -/
structure Homotopy (X Y : Type) where
  f : X → Y
  g : X → Y
  h : X → ℚ → Y

/-- trait Homotopy with parameter `[f64; 2]`, modelled as a pair. -/
structure Homotopy2 (X Y : Type) where
  f : X → Y
  g : X → Y
  h : X → ℚ × ℚ → Y

/-- trait Homotopy with parameter `[f64; 3]`, modelled as a triple. -/
structure Homotopy3 (X Y : Type) where
  f : X → Y
  g : X → Y
  h : X → ℚ × ℚ × ℚ → Y

/-- src/lib.rs `Dirac`: `f = 1.0`, `g = 0.0`,
`h(_, s) = if s == 0.0 { 1.0 } else { 0.0 }`. -/
def Dirac : Homotopy Unit ℚ :=
  ⟨fun _ => 1, fun _ => 0, fun _ s => if s = 0 then 1 else 0⟩

/-- src/lib.rs `DiracFrom`: `h` is `fx` at `s == 0.0` and `gx` elsewhere. -/
def DiracFrom {X Y : Type} (fx gx : X → Y) : Homotopy X Y :=
  ⟨fx, gx, fun x s => if s = 0 then fx x else gx x⟩

/-- src/lib.rs `Lerp(a, b)`: `h(_, s) = a * (1.0 - s) + b * s`. -/
def Lerp (a b : ℚ) : Homotopy Unit ℚ :=
  ⟨fun _ => a, fun _ => b, fun _ s => a * (1 - s) + b * s⟩

/-- src/lib.rs `QuadraticBezier(a, b, c)`: `h` nests `Lerp` twice
(de Casteljau of depth 2). -/
def QuadraticBezier (a b c : ℚ) : Homotopy Unit ℚ :=
  ⟨fun _ => a, fun _ => c,
   fun _ s => (Lerp ((Lerp a b).h () s) ((Lerp b c).h () s)).h () s⟩

/-- src/lib.rs `QuadraticBezier::from_linear(a, b)`:
`QuadraticBezier(a, a * 0.5 + b * 0.5, b)`. -/
def QuadraticBezier.from_linear (a b : ℚ) : Homotopy Unit ℚ :=
  QuadraticBezier a (a * (1 / 2) + b * (1 / 2)) b

/-- src/lib.rs `CubicBezier(a, b, c, d)`: `h` blends `Lerp(a, b)` with
`Lerp(c, d)` (as written in the source, not full de Casteljau). -/
def CubicBezier (a b c d : ℚ) : Homotopy Unit ℚ :=
  ⟨fun _ => a, fun _ => d,
   fun _ s => (Lerp ((Lerp a b).h () s) ((Lerp c d).h () s)).h () s⟩

/-- src/lib.rs `CubicBezier::from_quadratic(a, b, c)`:
`CubicBezier(a, b, b, c)` with the control point duplicated. -/
def CubicBezier.from_quadratic (a b c : ℚ) : Homotopy Unit ℚ :=
  CubicBezier a b b c

/-- src/lib.rs `Compose(h1, h2)` at scalar parameter:
`f = h2.f ∘ h1.f`, `g = h2.g ∘ h1.g`, `h(x, s) = h2.h(h1.h(x, s), s)`. -/
def Compose {X Y Z : Type} (h1 : Homotopy X Y) (h2 : Homotopy Y Z) :
    Homotopy X Z :=
  ⟨fun x => h2.f (h1.f x), fun x => h2.g (h1.g x),
   fun x s => h2.h (h1.h x s) s⟩

/-- src/lib.rs `Square(h1, h2)`: independent per-axis product producing a
2-parameter homotopy on pairs. -/
def Square {X1 X2 Y1 Y2 : Type} (h1 : Homotopy X1 Y1) (h2 : Homotopy X2 Y2) :
    Homotopy2 (X1 × X2) (Y1 × Y2) :=
  ⟨fun x => (h1.f x.1, h2.f x.2), fun x => (h1.g x.1, h2.g x.2),
   fun x s => (h1.h x.1 s.1, h2.h x.2 s.2)⟩

/-- src/lib.rs `Cube(h1, h2, h3)`: independent per-axis product producing a
3-parameter homotopy on triples. -/
def Cube {X1 X2 X3 Y1 Y2 Y3 : Type} (h1 : Homotopy X1 Y1)
    (h2 : Homotopy X2 Y2) (h3 : Homotopy X3 Y3) :
    Homotopy3 (X1 × X2 × X3) (Y1 × Y2 × Y3) :=
  ⟨fun x => (h1.f x.1, h2.f x.2.1, h3.f x.2.2),
   fun x => (h1.g x.1, h2.g x.2.1, h3.g x.2.2),
   fun x s => (h1.h x.1 s.1, h2.h x.2.1 s.2.1, h3.h x.2.2 s.2.2)⟩

/-- src/lib.rs `Inverse(t)`: `f = t.g`, `g = t.f`, `h(x, s) = t.h(x, 1.0 - s)`. -/
def Inverse {X Y : Type} (t : Homotopy X Y) : Homotopy X Y :=
  ⟨t.g, t.f, fun x s => t.h x (1 - s)⟩

/-- src/sides.rs `Diagonal` for `[f64; 2]`: `h(x, s) = t.h(x, [s, s])`. -/
def diagonal2 {X Y : Type} (t : Homotopy2 X Y) : Homotopy X Y :=
  ⟨t.f, t.g, fun x s => t.h x (s, s)⟩

/-- src/sides.rs `Diagonal` for `[f64; 3]`: `h(x, s) = t.h(x, [s, s, s])`. -/
def diagonal3 {X Y : Type} (t : Homotopy3 X Y) : Homotopy X Y :=
  ⟨t.f, t.g, fun x s => t.h x (s, s, s)⟩

/-- src/sides.rs `Left` at 2→1: `f = t.f`, `g = t.h(x, [0.0, 1.0])`,
`h(x, s) = t.h(x, [0.0, s])`. -/
def left2 {X Y : Type} (t : Homotopy2 X Y) : Homotopy X Y :=
  ⟨t.f, fun x => t.h x (0, 1), fun x s => t.h x (0, s)⟩

/-- src/sides.rs `Left` at 3→2: `f = t.f`, `g = t.h(x, [0.0, 1.0, 1.0])`,
`h(x, s) = t.h(x, [0.0, s[0], s[1]])`. -/
def left3 {X Y : Type} (t : Homotopy3 X Y) : Homotopy2 X Y :=
  ⟨t.f, fun x => t.h x (0, 1, 1), fun x s => t.h x (0, s.1, s.2)⟩

/-- src/sides.rs `Right` at 2→1: `f = t.h(x, [1.0, 0.0])`, `g = t.g`,
`h(x, s) = t.h(x, [1.0, s])`. -/
def right2 {X Y : Type} (t : Homotopy2 X Y) : Homotopy X Y :=
  ⟨fun x => t.h x (1, 0), t.g, fun x s => t.h x (1, s)⟩

/-- src/sides.rs `Right` at 3→2: `f = t.h(x, [1.0, 0.0, 0.0])`, `g = t.g`,
`h(x, s) = t.h(x, [1.0, s[0], s[1]])`. -/
def right3 {X Y : Type} (t : Homotopy3 X Y) : Homotopy2 X Y :=
  ⟨fun x => t.h x (1, 0, 0), t.g, fun x s => t.h x (1, s.1, s.2)⟩

/-- src/sides.rs `Top` at 2→1: `f = t.f`, `g = t.h(x, [1.0, 0.0])`,
`h(x, s) = t.h(x, [s, 0.0])`. -/
def top2 {X Y : Type} (t : Homotopy2 X Y) : Homotopy X Y :=
  ⟨t.f, fun x => t.h x (1, 0), fun x s => t.h x (s, 0)⟩

/-- src/sides.rs `Top` at 3→2: `f = t.f`, `g = t.h(x, [1.0, 0.0, 1.0])`,
`h(x, s) = t.h(x, [s[0], 0.0, s[1]])`. -/
def top3 {X Y : Type} (t : Homotopy3 X Y) : Homotopy2 X Y :=
  ⟨t.f, fun x => t.h x (1, 0, 1), fun x s => t.h x (s.1, 0, s.2)⟩

/-- src/sides.rs `Bottom` at 2→1: `f = t.h(x, [0.0, 1.0])`, `g = t.g`,
`h(x, s) = t.h(x, [s, 1.0])`. -/
def bottom2 {X Y : Type} (t : Homotopy2 X Y) : Homotopy X Y :=
  ⟨fun x => t.h x (0, 1), t.g, fun x s => t.h x (s, 1)⟩

/-- src/sides.rs `Bottom` at 3→2: `f = t.h(x, [0.0, 1.0, 0.0])`, `g = t.g`,
`h(x, s) = t.h(x, [s[0], 1.0, s[1]])`. -/
def bottom3 {X Y : Type} (t : Homotopy3 X Y) : Homotopy2 X Y :=
  ⟨fun x => t.h x (0, 1, 0), t.g, fun x s => t.h x (s.1, 1, s.2)⟩

/-- src/sides.rs `Front` at 3→2: `f = t.f`, `g = t.h(x, [1.0, 1.0, 0.0])`,
`h(x, s) = t.h(x, [s[0], s[1], 0.0])`. -/
def front3 {X Y : Type} (t : Homotopy3 X Y) : Homotopy2 X Y :=
  ⟨t.f, fun x => t.h x (1, 1, 0), fun x s => t.h x (s.1, s.2, 0)⟩

/-- src/sides.rs `Back` at 3→2: `f = t.h(x, [0.0, 0.0, 1.0])`, `g = t.g`,
`h(x, s) = t.h(x, [s[0], s[1], 1.0])`. -/
def back3 {X Y : Type} (t : Homotopy3 X Y) : Homotopy2 X Y :=
  ⟨fun x => t.h x (0, 0, 1), t.g, fun x s => t.h x (s.1, s.2, 1)⟩

/-- src/lib.rs `check(h, x)`:
`h.h(x, 0.0) == h.f(x) && h.h(x, 1.0) == h.g(x)`. -/
def check {X Y : Type} [DecidableEq Y] (t : Homotopy X Y) (x : X) : Bool :=
  decide (t.h x 0 = t.f x) && decide (t.h x 1 = t.g x)

/-- src/lib.rs `check2(h, x)`: the `[0,0]`/`[1,1]` corner equalities and
`check` on the left, right, top, bottom faces. -/
def check2 {X Y : Type} [DecidableEq Y] (t : Homotopy2 X Y) (x : X) : Bool :=
  decide (t.h x (0, 0) = t.f x) &&
  decide (t.h x (1, 1) = t.g x) &&
  check (left2 t) x &&
  check (right2 t) x &&
  check (top2 t) x &&
  check (bottom2 t) x

/-- src/lib.rs `check3(h, x)`: the `[0,0,0]`/`[1,1,1]` corner equalities and
`check2` on the left, right, top, bottom, front, back faces. -/
def check3 {X Y : Type} [DecidableEq Y] (t : Homotopy3 X Y) (x : X) : Bool :=
  decide (t.h x (0, 0, 0) = t.f x) &&
  decide (t.h x (1, 1, 1) = t.g x) &&
  check2 (left3 t) x &&
  check2 (right3 t) x &&
  check2 (top3 t) x &&
  check2 (bottom3 t) x &&
  check2 (front3 t) x &&
  check2 (back3 t) x

/-- A concrete 3-parameter homotopy used at counterexamples and witnesses:
`Cube(Lerp(1,2), Lerp(3,4), Lerp(5,6))` as in the check_cube test. -/
def cube3ex : Homotopy3 (Unit × Unit × Unit) (ℚ × ℚ × ℚ) :=
  Cube (Lerp 1 2) (Lerp 3 4) (Lerp 5 6)

/-- Claim C1 counterexample: on `Cube(Lerp(1,2), Lerp(3,4), Lerp(5,6))` the
Top face does not fix the last coordinate to 0 (it fixes the middle one), and
Front does not fix the middle coordinate (it fixes the last one): at the free
parameters `[1, 1]` both equalities the claim predicts fail. -/
theorem C1_counterexample :
    ¬ ((top3 cube3ex).h ((), (), ()) (1, 1) = cube3ex.h ((), (), ()) (1, 1, 0)) ∧
    ¬ ((front3 cube3ex).h ((), (), ()) (1, 1) = cube3ex.h ((), (), ()) (1, 0, 1)) := by
  norm_num [top3, front3, cube3ex, Cube, Lerp, Prod.ext_iff]

/-- Claim C1 (amended): for a 3-parameter homotopy, Top fixes the middle
coordinate of the parameter vector to 0 (its `h` evaluates the parent `h` with
the middle coordinate 0 and the free parameters in positions 0 and 2), while
Front and Back fix the last coordinate (to 0 and 1 respectively). -/
theorem C1_faces_amended {X Y : Type} (t : Homotopy3 X Y) (x : X) (s0 s1 : ℚ) :
    (top3 t).h x (s0, s1) = t.h x (s0, 0, s1) ∧
    (front3 t).h x (s0, s1) = t.h x (s0, s1, 0) ∧
    (back3 t).h x (s0, s1) = t.h x (s0, s1, 1) :=
  ⟨rfl, rfl, rfl⟩

/-- Claim C2 counterexample: on `Cube(Lerp(1,2), Lerp(3,4), Lerp(5,6))` the
3→2 Left face returns the parent `f` itself, and the parent `f` differs from
the parent `h` at every non-trivial corner of the parameter cube, so the 3→2
`f` is not obtained by evaluating `h` at a non-trivial corner. -/
theorem C2_counterexample :
    (left3 cube3ex).f ((), (), ()) = cube3ex.f ((), (), ()) ∧
    cube3ex.f ((), (), ()) ≠ cube3ex.h ((), (), ()) (0, 0, 1) ∧
    cube3ex.f ((), (), ()) ≠ cube3ex.h ((), (), ()) (0, 1, 0) ∧
    cube3ex.f ((), (), ()) ≠ cube3ex.h ((), (), ()) (0, 1, 1) ∧
    cube3ex.f ((), (), ()) ≠ cube3ex.h ((), (), ()) (1, 0, 0) ∧
    cube3ex.f ((), (), ()) ≠ cube3ex.h ((), (), ()) (1, 0, 1) ∧
    cube3ex.f ((), (), ()) ≠ cube3ex.h ((), (), ()) (1, 1, 0) ∧
    cube3ex.f ((), (), ()) ≠ cube3ex.h ((), (), ()) (1, 1, 1) := by
  norm_num [left3, cube3ex, Cube, Lerp, Prod.ext_iff]

/-- Claim C2 (amended): the Left combinator returns the parent `f` as its own
`f` at both the 2→1 and the 3→2 dimension; it is `g` that evaluates the parent
`h` at the corner with coordinate 0 fixed to 0 and the remaining coordinates 1. -/
theorem C2_left_amended {X2 Y2 X3 Y3 : Type} (t2 : Homotopy2 X2 Y2)
    (t3 : Homotopy3 X3 Y3) (x2 : X2) (x3 : X3) :
    (left2 t2).f x2 = t2.f x2 ∧ (left3 t3).f x3 = t3.f x3 ∧
    (left2 t2).g x2 = t2.h x2 (0, 1) ∧ (left3 t3).g x3 = t3.h x3 (0, 1, 1) :=
  ⟨rfl, rfl, rfl, rfl⟩

/-- Claim C3: `check` holds iff the two scalar corner equalities hold; `check2`
holds iff the `[0,0]`/`[1,1]` corner equalities and `check` on the four 1D
faces hold; `check3` holds iff the `[0,0,0]`/`[1,1,1]` corner equalities and
`check2` on all six 2D faces hold. -/
theorem C3_check_defs {X1 Y1 X2 Y2 X3 Y3 : Type}
    [DecidableEq Y1] [DecidableEq Y2] [DecidableEq Y3]
    (t1 : Homotopy X1 Y1) (t2 : Homotopy2 X2 Y2) (t3 : Homotopy3 X3 Y3)
    (x1 : X1) (x2 : X2) (x3 : X3) :
    (check t1 x1 = true ↔ (t1.h x1 0 = t1.f x1 ∧ t1.h x1 1 = t1.g x1)) ∧
    (check2 t2 x2 = true ↔ (t2.h x2 (0, 0) = t2.f x2 ∧ t2.h x2 (1, 1) = t2.g x2 ∧
      check (left2 t2) x2 = true ∧ check (right2 t2) x2 = true ∧
      check (top2 t2) x2 = true ∧ check (bottom2 t2) x2 = true)) ∧
    (check3 t3 x3 = true ↔ (t3.h x3 (0, 0, 0) = t3.f x3 ∧ t3.h x3 (1, 1, 1) = t3.g x3 ∧
      check2 (left3 t3) x3 = true ∧ check2 (right3 t3) x3 = true ∧
      check2 (top3 t3) x3 = true ∧ check2 (bottom3 t3) x3 = true ∧
      check2 (front3 t3) x3 = true ∧ check2 (back3 t3) x3 = true)) := by
  refine ⟨?_, ?_, ?_⟩ <;>
    simp [check, check2, check3, Bool.and_eq_true, decide_eq_true_eq, and_assoc]

/-- Claim C4: if `check` holds for `h1` at `x1` and for `h2` at `x2`, then
`check2` holds for `Square(h1, h2)` at `(x1, x2)`; in particular `check` holds
on the left, right, top and bottom faces of the square. -/
theorem C4_square_check2 {X1 X2 Y1 Y2 : Type} [DecidableEq Y1] [DecidableEq Y2]
    (h1 : Homotopy X1 Y1) (h2 : Homotopy X2 Y2) (x1 : X1) (x2 : X2)
    (hc1 : check h1 x1 = true) (hc2 : check h2 x2 = true) :
    check2 (Square h1 h2) (x1, x2) = true ∧
    check (left2 (Square h1 h2)) (x1, x2) = true ∧
    check (right2 (Square h1 h2)) (x1, x2) = true ∧
    check (top2 (Square h1 h2)) (x1, x2) = true ∧
    check (bottom2 (Square h1 h2)) (x1, x2) = true := by
  simp only [check, Bool.and_eq_true, decide_eq_true_eq] at hc1 hc2
  simp [check2, check, Square, left2, right2, top2, bottom2,
        Bool.and_eq_true, decide_eq_true_eq, Prod.ext_iff, hc1.1, hc1.2, hc2.1, hc2.2]

/-- Claim C4 witness: the square of `Lerp(1,5)` and `Lerp(11,15)` from the
check_square test. -/
theorem C4_square_check2_witness :
    check (Lerp 1 5) () = true ∧ check (Lerp 11 15) () = true ∧
    check2 (Square (Lerp 1 5) (Lerp 11 15)) ((), ()) = true :=
  ⟨by norm_num [check, Lerp], by norm_num [check, Lerp],
   (C4_square_check2 (Lerp 1 5) (Lerp 11 15) () ()
     (by norm_num [check, Lerp]) (by norm_num [check, Lerp])).1⟩

/-- Claim C5: `Inverse` swaps `f` and `g` and reverses the parameter, and it
preserves the `check` invariant. -/
theorem C5_inverse_check {X Y : Type} [DecidableEq Y] (t : Homotopy X Y) (x : X) :
    ((Inverse t).f x = t.g x ∧ (Inverse t).g x = t.f x ∧
      ∀ s : ℚ, (Inverse t).h x s = t.h x (1 - s)) ∧
    (check t x = true → check (Inverse t) x = true) := by
  refine ⟨⟨rfl, rfl, fun _ => rfl⟩, ?_⟩
  intro hc
  simp only [check, Bool.and_eq_true, decide_eq_true_eq] at hc
  simp [check, Inverse, Bool.and_eq_true, decide_eq_true_eq, hc.1, hc.2]

/-- Claim C5 witness: `Lerp(2,4)` and its inverse, as in the check_invert test. -/
theorem C5_inverse_check_witness :
    check (Lerp 2 4) () = true ∧ check (Inverse (Lerp 2 4)) () = true :=
  ⟨by norm_num [check, Lerp],
   (C5_inverse_check (Lerp 2 4) ()).2 (by norm_num [check, Lerp])⟩

/-- The sample set of the reduction tests: steps of 0.1 from 0 to 1. -/
def sampleSet : List ℚ :=
  [0, 1 / 10, 2 / 10, 3 / 10, 4 / 10, 5 / 10, 6 / 10, 7 / 10, 8 / 10, 9 / 10, 1]

/-- Claim C7: `QuadraticBezier::from_linear(a, b)` equals `Lerp(a, b)` at every
sampled parameter within tolerance 1e-6 (in exact arithmetic the difference is
zero), and `CubicBezier::from_quadratic(a, b, c)` equals
`QuadraticBezier(a, b, c)` exactly at every sampled parameter. -/
theorem C7_bezier_reduction (a b c s : ℚ) (_hs : s ∈ sampleSet) :
    |(QuadraticBezier.from_linear a b).h () s - (Lerp a b).h () s| < 1 / 1000000 ∧
    (CubicBezier.from_quadratic a b c).h () s = (QuadraticBezier a b c).h () s := by
  constructor
  · have he : (QuadraticBezier.from_linear a b).h () s = (Lerp a b).h () s := by
      show ((QuadraticBezier.from_linear a b).h () s = (Lerp a b).h () s)
      simp only [QuadraticBezier.from_linear, QuadraticBezier, Lerp]
      ring
    rw [he, sub_self, abs_zero]
    norm_num
  · rfl

/-- Claim C7 witness: evaluated at `a = 3`, `b = 10`, `c = 4`, sample `1/10`. -/
theorem C7_bezier_reduction_witness :
    ((1 / 10 : ℚ) ∈ sampleSet) ∧
    (|(QuadraticBezier.from_linear 3 10).h () (1 / 10) - (Lerp 3 10).h () (1 / 10)|
        < 1 / 1000000 ∧
      (CubicBezier.from_quadratic 3 10 4).h () (1 / 10)
        = (QuadraticBezier 3 10 4).h () (1 / 10)) :=
  ⟨by norm_num [sampleSet], C7_bezier_reduction 3 10 4 (1 / 10) (by norm_num [sampleSet])⟩

/-- Claim C9: `Dirac.h` is a total function; it returns 1 at parameter 0 and 0
at every other parameter, including parameters outside the unit interval. -/
theorem C9_dirac_total :
    Dirac.h () 0 = 1 ∧ ∀ s : ℚ, s ≠ 0 → Dirac.h () s = 0 := by
  constructor
  · rfl
  · intro s hs
    simp [Dirac, hs]

/-- Claim C9 witness: evaluated at 3/10 and at -2. -/
theorem C9_dirac_total_witness :
    ((3 / 10 : ℚ) ≠ 0 ∧ Dirac.h () (3 / 10) = 0) ∧
    ((-2 : ℚ) ≠ 0 ∧ Dirac.h () (-2) = 0) :=
  ⟨⟨by norm_num, C9_dirac_total.2 (3 / 10) (by norm_num)⟩,
   ⟨by norm_num, C9_dirac_total.2 (-2) (by norm_num)⟩⟩

/-- Claim C10: if the `[0,0]`/`[1,1]` corners of a 2-parameter homotopy agree
with its `f`/`g`, then `check` holds on its diagonal; likewise for a
3-parameter homotopy whose `[0,0,0]`/`[1,1,1]` corners agree with its `f`/`g`. -/
theorem C10_diagonal_check {X2 Y2 X3 Y3 : Type} [DecidableEq Y2] [DecidableEq Y3]
    (t2 : Homotopy2 X2 Y2) (t3 : Homotopy3 X3 Y3) (x2 : X2) (x3 : X3) :
    (t2.h x2 (0, 0) = t2.f x2 → t2.h x2 (1, 1) = t2.g x2 →
      check (diagonal2 t2) x2 = true) ∧
    (t3.h x3 (0, 0, 0) = t3.f x3 → t3.h x3 (1, 1, 1) = t3.g x3 →
      check (diagonal3 t3) x3 = true) := by
  constructor <;> intro h0 h1 <;>
    simp only [check, diagonal2, diagonal3, Bool.and_eq_true, decide_eq_true_eq] <;>
    exact ⟨h0, h1⟩

/-- Claim C10 witness: the diagonals of the square and cube of the tests. -/
theorem C10_diagonal_check_witness :
    ((Square (Lerp 1 5) (Lerp 11 15)).h ((), ()) (0, 0)
        = (Square (Lerp 1 5) (Lerp 11 15)).f ((), ()) ∧
      (Square (Lerp 1 5) (Lerp 11 15)).h ((), ()) (1, 1)
        = (Square (Lerp 1 5) (Lerp 11 15)).g ((), ()) ∧
      check (diagonal2 (Square (Lerp 1 5) (Lerp 11 15))) ((), ()) = true) ∧
    (cube3ex.h ((), (), ()) (0, 0, 0) = cube3ex.f ((), (), ()) ∧
      cube3ex.h ((), (), ()) (1, 1, 1) = cube3ex.g ((), (), ()) ∧
      check (diagonal3 cube3ex) ((), (), ()) = true) :=
  ⟨⟨by norm_num [Square, Lerp, Prod.ext_iff], by norm_num [Square, Lerp, Prod.ext_iff],
    (C10_diagonal_check (Square (Lerp 1 5) (Lerp 11 15)) cube3ex ((), ())
      ((), (), ())).1 (by norm_num [Square, Lerp, Prod.ext_iff])
      (by norm_num [Square, Lerp, Prod.ext_iff])⟩,
   ⟨by norm_num [cube3ex, Cube, Lerp, Prod.ext_iff],
    by norm_num [cube3ex, Cube, Lerp, Prod.ext_iff],
    (C10_diagonal_check (Square (Lerp 1 5) (Lerp 11 15)) cube3ex ((), ())
      ((), (), ())).2 (by norm_num [cube3ex, Cube, Lerp, Prod.ext_iff])
      (by norm_num [cube3ex, Cube, Lerp, Prod.ext_iff])⟩⟩

end HomotopySpec
